import Mathlib

/-!
Shallow embedding of `src/archivotron/PathGenerator.py`.

Python strings are Lean `String`s; Python `dict[str, str]` attribute maps are
insertion-ordered association lists; Python exceptions (`ValueError`) become an
explicit error type threaded through `Except`.  Python's `str.split(sep)` and
`sep.join(fields)` (for non-empty `sep`, the only case the source exercises:
`_strip_repeat_delimiters` guards `d != ""`) are re-implemented below as
`pySplit`/`pyJoin` with the same greedy left-to-right, non-overlapping
semantics, so that theorems can be proved about them by induction.

Two places in the source iterate over a Python `set` whose iteration order is
unspecified (`_attributes` when building the registry-filtered subset, and the
delimiter set in `_strip_repeat_delimiters`); the embedding fixes a canonical
first-insertion order for both.  Every property proved below about those spots
is order-independent, so the choice is harmless.
-/

namespace Archivotron

/-- Attribute maps: the `dict[str, str]` passed to `gen_path`, modelled as an
insertion-ordered association list; lookup returns the first binding. -/
abbrev AttrMap := List (String × String)

/-- Lookup of a key in an attribute map (Python `attributes[k]` guarded by
`k in attributes.keys()`). -/
def lookupA (m : AttrMap) (k : String) : Option String :=
  match m with
  | [] => none
  | (k0, v0) :: rest => if k0 = k then some v0 else lookupA rest k

/-- Error kinds: each constructor corresponds to one `raise ValueError(...)`
site of the source (or to an error the spec describes).  `unknownAttribute` is
the `"Attribute {k} is not valid"` re-scan in `gen_path`'s `except KeyError`
handler; `duplicateAttribute` is the error of the `add_attribute` method that
the repository's tests call but whose body is not under `src/`. -/
inductive PGError where
  | notTerminated
  | missingRequired (key : String)
  | ruleViolation (attr : String) (key : String) (val : String)
  | unknownAttribute (key : String)
  | invalidFileSep (sep : String)
  | duplicateAttribute (key : String)
deriving DecidableEq, Repr

/-- `NameComponent`: key, key-value delimiter, value-only flag, required flag
(fields of the Python class of the same name). -/
structure NameComponent where
  key : String
  kv_delim : String
  value_only : Bool
  required : Bool
deriving DecidableEq, Repr

/-- `NameComponent.__init__`: stores the fields, except that
`if value_only or required: self.required = True else: ... = False`. -/
def NameComponent.make (key kv_delim : String) (value_only required : Bool) :
    NameComponent :=
  ⟨key, kv_delim, value_only, value_only || required⟩

/-- `NameComponent.name(attributes)`: raises when the key is required but
absent; renders `""` when optional and absent; otherwise renders the value
alone (`value_only`) or `key + kv_delim + value`.  The source computes
`has_key` once and branches in the same way. -/
def NameComponent.name (nc : NameComponent) (attributes : AttrMap) :
    Except PGError String :=
  match lookupA attributes nc.key with
  | none => if nc.required then .error (.missingRequired nc.key) else .ok ""
  | some v => .ok (if nc.value_only then v else nc.key ++ nc.kv_delim ++ v)

/-- `InclusionRule`: trigger key, trigger value set, allowed key set.  The sets
are kept as lists (only membership is ever used); `__init__` promotes a plain
string to a one-element list before forming the set. -/
structure InclusionRule where
  key : String
  value : List String
  includes : List String
deriving DecidableEq, Repr

/-- `InclusionRule.check(attributes)`: a no-op unless the trigger key is
present with a value in the trigger set; when triggered, the first key of the
map (in iteration order) not in `includes` raises.  Note the loop runs over
every key of the map, the trigger key itself included. -/
def InclusionRule.check (r : InclusionRule) (attributes : AttrMap) :
    Except PGError Unit :=
  match lookupA attributes r.key with
  | none => .ok ()
  | some val =>
    if val ∈ r.value then
      match attributes.find? (fun q => !(r.includes.contains q.1)) with
      | some q => .error (.ruleViolation q.1 r.key val)
      | none => .ok ()
    else .ok ()

/-- A segment of the component list: the source stores either a plain string
(a literal/delimiter) or a `NameComponent` and distinguishes them with
`isinstance`. -/
inductive Segment where
  | lit (s : String)
  | comp (nc : NameComponent)
deriving DecidableEq, Repr

/-- `PathGenerator._str(o, att)`: a string maps to itself, a `NameComponent`
to `o.name(att)`. -/
def Segment.str (s : Segment) (att : AttrMap) : Except PGError String :=
  match s with
  | .lit t => .ok t
  | .comp nc => nc.name att

/-- The `PathGenerator` state: registered attribute names (`_attributes`, a
Python set kept here in first-insertion order), the ordered component list,
the terminated flag, the three separators and the rule list. -/
structure PathGenerator where
  attributes : List String
  components : List Segment
  terminated : Bool
  attribute_sep : String
  kv_sep : String
  file_sep : String
  rules : List InclusionRule
deriving DecidableEq, Repr

/-- The state `PathGenerator.__init__` builds once the file separator has been
resolved: empty registry and rules, not terminated, and the component list
seeded from `root` (`None` → `[]`, `""` → `[file_sep]`, otherwise
`[root + file_sep]`). -/
def PathGenerator.init (root : Option String)
    (attribute_sep kv_sep file_sep : String) : PathGenerator :=
  { attributes := []
    components :=
      match root with
      | none => []
      | some r =>
        if r = "" then [Segment.lit file_sep] else [Segment.lit (r ++ file_sep)]
    terminated := false
    attribute_sep := attribute_sep
    kv_sep := kv_sep
    file_sep := file_sep
    rules := [] }

/-- `PathGenerator.__init__` including the file-separator validation: an
explicit `file_sep` must be `"/"` or `"\\"`, otherwise `ValueError`; when it
is `None` the platform separator `osSep` (`os.path.sep`, supplied by the
environment) is used unvalidated. -/
def PathGenerator.make (root : Option String) (attribute_sep kv_sep : String)
    (file_sep : Option String) (osSep : String) :
    Except PGError PathGenerator :=
  match file_sep with
  | none => .ok (PathGenerator.init root attribute_sep kv_sep osSep)
  | some f =>
    if f = "/" ∨ f = "\\" then .ok (PathGenerator.init root attribute_sep kv_sep f)
    else .error (.invalidFileSep f)

/-- `PathGenerator.add_component(key, delimiter, value_only, required)`: adds
`key` to `_attributes` (a set add: a no-op on a repeat), resolves the
delimiter default, and appends the new component — preceded by the default
`attribute_sep` literal exactly when the current last element is itself a
component. -/
def PathGenerator.add_component (pg : PathGenerator) (key : String)
    (delimiter : Option String) (value_only required : Bool) : PathGenerator :=
  let attributes :=
    if key ∈ pg.attributes then pg.attributes else pg.attributes ++ [key]
  let d := delimiter.getD pg.kv_sep
  let nc := NameComponent.make key d value_only required
  let components :=
    match pg.components.getLast? with
    | none => [Segment.comp nc]
    | some (Segment.comp _) =>
      pg.components ++ [Segment.lit pg.attribute_sep, Segment.comp nc]
    | some (Segment.lit _) => pg.components ++ [Segment.comp nc]
  { pg with attributes := attributes, components := components }

/-- `PathGenerator.delimiter_override(delimiter)`: appends the raw string. -/
def PathGenerator.delimiter_override (pg : PathGenerator) (delimiter : String) :
    PathGenerator :=
  { pg with components := pg.components ++ [Segment.lit delimiter] }

/-- `PathGenerator.add_filesep()`: appends the file separator string. -/
def PathGenerator.add_filesep (pg : PathGenerator) : PathGenerator :=
  { pg with components := pg.components ++ [Segment.lit pg.file_sep] }

/-- `PathGenerator.terminate()`: sets the terminated flag. -/
def PathGenerator.terminate (pg : PathGenerator) : PathGenerator :=
  { pg with terminated := true }

/-- `PathGenerator.add_inclusion_rule(key, value, attributes)`: appends an
`InclusionRule` (the `value` argument already normalised to a list). -/
def PathGenerator.add_inclusion_rule (pg : PathGenerator) (key : String)
    (value : List String) (attrs : List String) : PathGenerator :=
  { pg with rules := pg.rules ++ [⟨key, value, attrs⟩] }

/-- Modelled from the spec: the `add_attribute` registration method is called
by the repository's tests (`test_add_attribute` expects a second registration
of the same name to raise `"Attempted to overwrite..."`) but its body is not
under `src/`.  Spec §4.1: `register(name, ...)` fails with `DuplicateAttribute`
if `name` is already registered, otherwise records it; the registry only
grows. -/
def PathGenerator.add_attribute (pg : PathGenerator) (name_ : String) :
    Except PGError PathGenerator :=
  if name_ ∈ pg.attributes then .error (.duplicateAttribute name_)
  else .ok { pg with attributes := pg.attributes ++ [name_] }

/-- The registry-filtered subset
`{k: attributes[k] for k in self._attributes if k in attributes.keys()}`,
iterating the registry in the embedding's canonical order. -/
def subsetAttrs (registered : List String) (attributes : AttrMap) : AttrMap :=
  match registered with
  | [] => []
  | k :: rest =>
    match lookupA attributes k with
    | some v => (k, v) :: subsetAttrs rest attributes
    | none => subsetAttrs rest attributes

/-- `for rule in self._rules: rule.check(subset)` — the first raising rule
aborts. -/
def runRules (rules : List InclusionRule) (m : AttrMap) : Except PGError Unit :=
  match rules with
  | [] => .ok ()
  | r :: rest =>
    match r.check m with
    | .ok _ => runRules rest m
    | .error e => .error e

/-- The list comprehension `[PathGenerator._str(x, attributes) for x in
self._components]` followed by `"".join(...)`: segments render left to right,
the first raising segment aborts, the results concatenate. -/
def renderSegs (att : AttrMap) (segs : List Segment) : Except PGError String :=
  match segs with
  | [] => .ok ""
  | s :: rest =>
    match s.str att with
    | .error e => .error e
    | .ok x =>
      match renderSegs att rest with
      | .error e => .error e
      | .ok xs => .ok (x ++ xs)

/-- Does `pre` start the list `s`?  (Helper for the split re-implementation.) -/
def hasPre : List Char → List Char → Bool
  | [], _ => true
  | _ :: _, [] => false
  | p :: ps, c :: cs => p = c && hasPre ps cs

/-- Python `s.split(sep)` for a non-empty separator `d :: ds`, on character
lists: greedy left-to-right scan for non-overlapping occurrences; always
returns at least one (possibly empty) field.  The `fuel` argument makes the
recursion structural (so the kernel can evaluate it); any `fuel ≥ s.length`
gives the same result, and the wrapper `pySplit` passes `s.length`. -/
def pySplitF (d : Char) (ds : List Char) : Nat → List Char → List (List Char)
  | _, [] => [[]]
  | 0, s => [s]
  | fuel + 1, c :: rest =>
    if hasPre (d :: ds) (c :: rest) then
      [] :: pySplitF d ds fuel (rest.drop ds.length)
    else
      match pySplitF d ds fuel rest with
      | [] => [[c]]
      | f :: fs => (c :: f) :: fs

/-- Python `s.split(sep)` for non-empty separator `d :: ds`. -/
def pySplit (d : Char) (ds : List Char) (s : List Char) : List (List Char) :=
  pySplitF d ds s.length s

/-- Python `sep.join(fields)`. -/
def pyJoin (d : String) : List String → String
  | [] => ""
  | [x] => x
  | x :: y :: rest => x ++ d ++ pyJoin d (y :: rest)

/-- Python `s.split(sep)` on `String`s (the `sep = ""` branch is unreachable:
the caller guards `d != ""`). -/
def pyStrSplit (d : String) (s : String) : List String :=
  match d.data with
  | [] => [s]
  | c :: cs => (pySplit c cs s.data).map (fun l => String.mk l)

/-- One pass of the body of the delimiter loop:
`path = d.join([x for x in path.split(d) if x != ""])`. -/
def stripOnce (d : String) (path : String) : String :=
  pyJoin d ((pyStrSplit d path).filter (fun x => x != ""))

/-- The delimiter loop `for d in delimiters: if d != "": ...`, over an
explicit delimiter list. -/
def stripFold (delims : List String) (path : String) : String :=
  match delims with
  | [] => path
  | d :: rest => stripFold rest (if d = "" then path else stripOnce d path)

/-- The delimiter of a stored component: the string itself for a literal, the
`kv_delim` for a `NameComponent` (the two branches of the `isinstance` test
in `_strip_repeat_delimiters`). -/
def segDelim : Segment → String
  | .lit s => s
  | .comp nc => nc.kv_delim

/-- The delimiter set of `_strip_repeat_delimiters`, collected in
first-insertion order (the source iterates a Python set). -/
def collectDelims : List Segment → List String → List String
  | [], acc => acc
  | s :: rest, acc =>
    collectDelims rest (if segDelim s ∈ acc then acc else acc ++ [segDelim s])

/-- `PathGenerator._strip_repeat_delimiters(path)`. -/
def PathGenerator.strip_repeat_delimiters (pg : PathGenerator) (path : String) :
    String :=
  stripFold (collectDelims pg.components []) path

/-- `PathGenerator.gen_path(attributes)`: terminated gate, registry-filtered
subset, rule checks, segment rendering (against the full `attributes` dict,
as in the source), then delimiter stripping.  The source's `except KeyError`
rescue (which would re-scan for an unknown attribute) is unreachable:
`NameComponent.name` tests membership before subscripting and raises
`ValueError`, never `KeyError`, so rendering errors propagate unchanged. -/
def PathGenerator.gen_path (pg : PathGenerator) (attributes : AttrMap) :
    Except PGError String :=
  if !pg.terminated then .error .notTerminated
  else
    let subset := subsetAttrs pg.attributes attributes
    match runRules pg.rules subset with
    | .error e => .error e
    | .ok _ =>
      match renderSegs attributes pg.components with
      | .error e => .error e
      | .ok path => .ok (pg.strip_repeat_delimiters path)

/-- Decidable equality for rendering results (plumbing for `decide`). -/
instance : DecidableEq (Except PGError String)
  | .error e, .error f => decidable_of_iff (e = f) (by simp)
  | .error _, .ok _ => isFalse (by simp)
  | .ok _, .error _ => isFalse (by simp)
  | .ok a, .ok b => decidable_of_iff (a = b) (by simp)

/-! ### Concrete templates used by the theorems below -/

/-- The Scenario A template of the spec and of `test_gen_path_succeeds`:
default construction (root `""`, separators `"_"`, `"-"`, file separator
`"/"`), then the component/filesep sequence of the test, then `terminate`. -/
def scenarioA : PathGenerator :=
  PathGenerator.init (some "") "_" "-" "/"
  |>.add_component "subject" none false true
  |>.add_filesep
  |>.add_component "session" none false true
  |>.add_filesep
  |>.add_component "modality" none true true
  |>.add_filesep
  |>.add_component "subject" none false true
  |>.add_component "session" none false true
  |>.add_component "submodality" none true true
  |>.terminate

/-- The Scenario A attribute map. -/
def attsA : AttrMap :=
  [("subject", "Jen"), ("session", "1"), ("modality", "anat"),
   ("submodality", "T1w")]

/-- The Scenario C template of the spec and of `test_gen_path_fails`:
root `"/"`, registry holding only `subject`, one `Component(subject)`,
terminated. -/
def scenarioC : PathGenerator :=
  PathGenerator.init (some "/") "_" "-" "/"
  |>.add_component "subject" none false true
  |>.terminate

/-- A template with an optional component between two required ones
(`a`, then `opt` with `required=false`, then `b`), used for the
normalization theorems: its segments are
`[Component(a), "_", Component(opt), "_", Component(b)]`. -/
def pgOptMid : PathGenerator :=
  PathGenerator.init none "_" "-" "/"
  |>.add_component "a" none false true
  |>.add_component "opt" none false false
  |>.add_component "b" none false true
  |>.terminate

/-- A template whose optional component sits at the start of the path:
segments `["/", Component(opt), "/", Component(b)]`. -/
def pgOptStart : PathGenerator :=
  PathGenerator.init (some "") "_" "-" "/"
  |>.add_component "opt" none false false
  |>.add_filesep
  |>.add_component "b" none false true
  |>.terminate

/-! ### Lemmas about the split/join machinery (single-character separators,
the only kind the normalization theorems below need) -/

theorem pySplitF_fuel_irrel (c : Char) (f1 : Nat) :
    ∀ (f2 : Nat) (s : List Char), s.length ≤ f1 → s.length ≤ f2 →
      pySplitF c [] f1 s = pySplitF c [] f2 s := by
  induction f1 with
  | zero =>
    intro f2 s h1 _
    cases s with
    | nil => cases f2 <;> rfl
    | cons x rest => simp at h1
  | succ n ih =>
    intro f2 s h1 h2
    cases s with
    | nil => cases f2 <;> rfl
    | cons x rest =>
      cases f2 with
      | zero => simp at h2
      | succ m =>
        simp only [pySplitF, List.length_nil, List.drop_zero]
        rw [ih m rest (by simp at h1; omega) (by simp at h2; omega)]

theorem pySplit_no (c : Char) (s : List Char) (h : c ∉ s) :
    pySplit c [] s = [s] := by
  induction s with
  | nil => rfl
  | cons x rest ih =>
    have hxc : ¬(c = x) := fun e => h (e ▸ List.mem_cons_self x rest)
    have hrest : c ∉ rest := fun e => h (List.mem_cons_of_mem x e)
    show pySplitF c [] (rest.length + 1) (x :: rest) = [x :: rest]
    simp only [pySplitF]
    rw [if_neg (by simp [hasPre, hxc]),
      show pySplitF c [] rest.length rest = [rest] from ih hrest]

theorem pySplit_skip (c : Char) (f r : List Char) (h : c ∉ f) :
    pySplit c [] (f ++ c :: r) = f :: pySplit c [] r := by
  induction f with
  | nil =>
    show pySplitF c [] (r.length + 1) (c :: r) = [] :: pySplit c [] r
    simp only [pySplitF, List.drop_zero]
    rw [if_pos (by simp [hasPre])]
    rfl
  | cons x f' ih =>
    have hxc : ¬(c = x) := fun e => h (e ▸ List.mem_cons_self x f')
    have hf' : c ∉ f' := fun e => h (List.mem_cons_of_mem x e)
    show pySplitF c [] ((f' ++ c :: r).length + 1) (x :: (f' ++ c :: r))
      = (x :: f') :: pySplit c [] r
    simp only [pySplitF]
    rw [if_neg (by simp [hasPre, hxc]),
      show pySplitF c [] (f' ++ c :: r).length (f' ++ c :: r)
        = f' :: pySplit c [] r from ih hf']

theorem pySplit_two (c : Char) (f0 f2 : List Char) (h0 : c ∉ f0)
    (h2 : c ∉ f2) : pySplit c [] (f0 ++ c :: f2) = [f0, f2] := by
  rw [pySplit_skip c f0 f2 h0, pySplit_no c f2 h2]

theorem pySplit_three (c : Char) (f0 f1 f2 : List Char) (h0 : c ∉ f0)
    (h1 : c ∉ f1) (h2 : c ∉ f2) :
    pySplit c [] (f0 ++ c :: (f1 ++ c :: f2)) = [f0, f1, f2] := by
  rw [pySplit_skip c f0 (f1 ++ c :: f2) h0, pySplit_skip c f1 f2 h1,
    pySplit_no c f2 h2]

theorem pyStrSplit_mk (c : Char) (d : String) (hd : d.data = [c]) (s : String) :
    pyStrSplit d s = (pySplit c [] s.data).map (fun l => String.mk l) := by
  unfold pyStrSplit
  rw [hd]

theorem stripOnce_eq (c : Char) (d : String) (hd : d.data = [c]) (p : String) :
    stripOnce d p =
      pyJoin d (((pySplit c [] p.data).map (fun l => String.mk l)).filter
        (fun x => x != "")) := by
  unfold stripOnce
  rw [pyStrSplit_mk c d hd]

theorem mk_bne_empty (l : List Char) (h : l ≠ []) :
    (String.mk l != "") = true := by
  simp only [bne_iff_ne, ne_eq]
  intro e
  exact h (by simpa using congrArg String.data e)

theorem data_ne_nil (s : String) (h : s ≠ "") : s.data ≠ [] :=
  fun e => h (String.ext (by simpa using e))

theorem not_mem_cons_of_ne {α : Type} {c x : α} {l : List α} (h1 : c ≠ x)
    (h2 : c ∉ l) : c ∉ x :: l := by
  intro hm
  rcases List.mem_cons.mp hm with h | h
  · exact h1 h
  · exact h2 h

theorem not_mem_append_of {α : Type} {c : α} {l1 l2 : List α} (h1 : c ∉ l1)
    (h2 : c ∉ l2) : c ∉ l1 ++ l2 := by
  intro hm
  rcases List.mem_append.mp hm with h | h
  · exact h1 h
  · exact h2 h

/-- Reduction of `gen_path` for a terminated, rule-free template, down to
rendering plus the delimiter-stripping fold. -/
theorem gen_path_norules (pg : PathGenerator) (att : AttrMap) (raw : String)
    (hterm : pg.terminated = true) (hrules : pg.rules = [])
    (hrend : renderSegs att pg.components = .ok raw) :
    pg.gen_path att = .ok (stripFold (collectDelims pg.components []) raw) := by
  simp [PathGenerator.gen_path, hterm, hrules, hrend, runRules,
    PathGenerator.strip_repeat_delimiters]

/-- On the mid-template raw rendering, stripping on `"-"` is the identity:
splitting produces no empty field. -/
theorem stripOnce_dash_mid (va vb : String) (hva : '-' ∉ va.data)
    (hvb : '-' ∉ vb.data) (hvbne : vb ≠ "") :
    stripOnce "-" ("a-" ++ va ++ "__b-" ++ vb) = "a-" ++ va ++ "__b-" ++ vb := by
  have e1 : ("a-" : String).data = ['a', '-'] := rfl
  have e2 : ("__b-" : String).data = ['_', '_', 'b', '-'] := rfl
  have hdata : ("a-" ++ va ++ "__b-" ++ vb).data
      = ['a'] ++ '-' :: ((va.data ++ ['_', '_', 'b']) ++ '-' :: vb.data) := by
    simp [e1, e2]
  rw [stripOnce_eq '-' "-" rfl, hdata,
    pySplit_three '-' ['a'] (va.data ++ ['_', '_', 'b']) vb.data
      (by decide) (not_mem_append_of hva (by decide)) hvb]
  have c1 : (String.mk ['a'] != "") = true := by decide
  have c2 : (String.mk (va.data ++ ['_', '_', 'b']) != "") = true :=
    mk_bne_empty _ (by simp)
  have c3 : (String.mk vb.data != "") = true :=
    mk_bne_empty _ (data_ne_nil vb hvbne)
  simp only [List.map, List.filter, c1, c2, c3, pyJoin]
  apply String.ext
  simp [e1, e2]

/-- On the mid-template raw rendering, stripping on `"_"` collapses the
doubled separator left by the vanished optional component. -/
theorem stripOnce_underscore_mid (va vb : String) (hva : '_' ∉ va.data)
    (hvb : '_' ∉ vb.data) :
    stripOnce "_" ("a-" ++ va ++ "__b-" ++ vb) = "a-" ++ va ++ "_b-" ++ vb := by
  have e1 : ("a-" : String).data = ['a', '-'] := rfl
  have e2 : ("__b-" : String).data = ['_', '_', 'b', '-'] := rfl
  have e3 : ("_b-" : String).data = ['_', 'b', '-'] := rfl
  have hdata : ("a-" ++ va ++ "__b-" ++ vb).data
      = ('a' :: '-' :: va.data) ++ '_' :: ([] ++ '_' :: ('b' :: '-' :: vb.data)) := by
    simp [e1, e2]
  rw [stripOnce_eq '_' "_" rfl, hdata,
    pySplit_three '_' ('a' :: '-' :: va.data) [] ('b' :: '-' :: vb.data)
      (not_mem_cons_of_ne (by decide) (not_mem_cons_of_ne (by decide) hva))
      (by simp)
      (not_mem_cons_of_ne (by decide) (not_mem_cons_of_ne (by decide) hvb))]
  have c1 : (String.mk ('a' :: '-' :: va.data) != "") = true :=
    mk_bne_empty _ (by simp)
  have c2 : (String.mk ([] : List Char) != "") = false := by decide
  have c3 : (String.mk ('b' :: '-' :: vb.data) != "") = true :=
    mk_bne_empty _ (by simp)
  simp only [List.map, List.filter, c1, c2, c3, pyJoin]
  apply String.ext
  simp [e1, e3]

/-- On the start-template raw rendering, stripping on `"/"` removes the
leading separator pair entirely (both fields around it are empty). -/
theorem stripOnce_slash_start (vb : String) (hvb : '/' ∉ vb.data) :
    stripOnce "/" ("//b-" ++ vb) = "b-" ++ vb := by
  have hdata : ("//b-" ++ vb).data
      = [] ++ '/' :: ([] ++ '/' :: ('b' :: '-' :: vb.data)) := rfl
  rw [stripOnce_eq '/' "/" rfl, hdata,
    pySplit_three '/' [] [] ('b' :: '-' :: vb.data)
      (by simp) (by simp)
      (not_mem_cons_of_ne (by decide) (not_mem_cons_of_ne (by decide) hvb))]
  have c2 : (String.mk ([] : List Char) != "") = false := by decide
  have c3 : (String.mk ('b' :: '-' :: vb.data) != "") = true :=
    mk_bne_empty _ (by simp)
  simp only [List.map, List.filter, c2, c3, pyJoin]
  apply String.ext
  simp

/-- Stripping on `"-"` is the identity on `"b-" ++ vb` for a non-empty,
dash-free `vb`. -/
theorem stripOnce_dash_bx (vb : String) (hvb : '-' ∉ vb.data) (hne : vb ≠ "") :
    stripOnce "-" ("b-" ++ vb) = "b-" ++ vb := by
  have hdata : ("b-" ++ vb).data = ['b'] ++ '-' :: vb.data := rfl
  rw [stripOnce_eq '-' "-" rfl, hdata, pySplit_two '-' ['b'] vb.data
    (by decide) hvb]
  have c1 : (String.mk ['b'] != "") = true := by decide
  have c2 : (String.mk vb.data != "") = true :=
    mk_bne_empty _ (data_ne_nil vb hne)
  simp only [List.map, List.filter, c1, c2, pyJoin]
  apply String.ext
  simp

/-- The normalized mid-template output contains the `"_"` delimiter exactly
once (its split has exactly two fields). -/
theorem count_underscore (va vb : String) (hva : '_' ∉ va.data)
    (hvb : '_' ∉ vb.data) :
    (pyStrSplit "_" ("a-" ++ va ++ "_b-" ++ vb)).length = 2 := by
  have e1 : ("a-" : String).data = ['a', '-'] := rfl
  have e3 : ("_b-" : String).data = ['_', 'b', '-'] := rfl
  have hdata : ("a-" ++ va ++ "_b-" ++ vb).data
      = ('a' :: '-' :: va.data) ++ '_' :: ('b' :: '-' :: vb.data) := by
    simp [e1, e3]
  rw [pyStrSplit_mk '_' "_" rfl, hdata,
    pySplit_two '_' ('a' :: '-' :: va.data) ('b' :: '-' :: vb.data)
      (not_mem_cons_of_ne (by decide) (not_mem_cons_of_ne (by decide) hva))
      (not_mem_cons_of_ne (by decide) (not_mem_cons_of_ne (by decide) hvb))]
  rfl

/-- The normalized start-template output contains the `"/"` delimiter zero
times (its split is a single field). -/
theorem count_slash (vb : String) (hvb : '/' ∉ vb.data) :
    (pyStrSplit "/" ("b-" ++ vb)).length = 1 := by
  have hdata : ("b-" ++ vb).data = 'b' :: '-' :: vb.data := rfl
  rw [pyStrSplit_mk '/' "/" rfl, hdata,
    pySplit_no '/' ('b' :: '-' :: vb.data)
      (not_mem_cons_of_ne (by decide) (not_mem_cons_of_ne (by decide) hvb))]
  rfl

/-! ### Claim theorems -/

/-- C1: the code disagrees with the claim (and with the repository's own test
`test_gen_path_succeeds`): for the Scenario A template and attribute map,
`gen_path` returns `"subject-Jen/session-1/anat/subject-Jen_session-1_T1w"`
without the claimed leading `"/"` — `_strip_repeat_delimiters` splits on the
`"/"` delimiter, and the leading empty field produced by the root separator is
filtered out, so the rejoin drops the initial `"/"`. -/
theorem C1_scenarioA_output :
    scenarioA.gen_path attsA =
      .ok "subject-Jen/session-1/anat/subject-Jen_session-1_T1w"
  ∧ scenarioA.gen_path attsA ≠
      .ok "/subject-Jen/session-1/anat/subject-Jen_session-1_T1w" :=
  ⟨rfl, by decide⟩

/-- C3: the code disagrees with the claim (and with the repository's own test
`test_gen_path_fails`): on the Scenario C template, `gen_path({pencils: 5})`
raises the missing-required error for `subject` (from `NameComponent.name`),
not `UnknownAttribute("pencils")` — the unknown-attribute re-scan sits in an
`except KeyError` handler that can never fire, because `name()` checks key
membership before subscripting and raises `ValueError`. -/
theorem C3_scenarioC_unknown_attribute :
    scenarioC.gen_path [("pencils", "5")] = .error (.missingRequired "subject")
  ∧ scenarioC.gen_path [("pencils", "5")] ≠
      .error (.unknownAttribute "pencils") :=
  ⟨rfl, by decide⟩

/-- C2 counterexample: the second half of the claim is false — on the
terminated Scenario C template, every mutator simply performs its mutation
(no `AlreadyTerminated` check exists anywhere in the source). -/
theorem C2_counterexample :
    scenarioC.terminated = true
  ∧ (scenarioC.add_component "extra" none false true).components
      = scenarioC.components ++ [Segment.lit "_",
          Segment.comp (NameComponent.make "extra" "-" false true)]
  ∧ (scenarioC.delimiter_override "+").components
      = scenarioC.components ++ [Segment.lit "+"]
  ∧ scenarioC.add_filesep.components = scenarioC.components ++ [Segment.lit "/"]
  ∧ (scenarioC.add_inclusion_rule "k" ["v"] ["a"]).rules
      = scenarioC.rules ++ [⟨"k", ["v"], ["a"]⟩] := by
  decide

/-- C2 (amended): `gen_path` before `terminate()` fails with the
not-terminated error, for every template and attribute map; mutator calls,
however, are not gated on the terminated flag at all — each one performs its
mutation (and leaves the flag unchanged) whether or not `terminate()` has
been called. -/
theorem C2_terminal_gating :
    (∀ (pg : PathGenerator) (att : AttrMap), pg.terminated = false →
        pg.gen_path att = .error .notTerminated)
  ∧ (∀ (pg : PathGenerator) (key : String) (d : Option String) (vo rq : Bool),
        pg.components.length < (pg.add_component key d vo rq).components.length
      ∧ (pg.add_component key d vo rq).terminated = pg.terminated)
  ∧ (∀ (pg : PathGenerator) (d : String),
        (pg.delimiter_override d).components = pg.components ++ [Segment.lit d]
      ∧ (pg.delimiter_override d).terminated = pg.terminated)
  ∧ (∀ pg : PathGenerator,
        pg.add_filesep.components = pg.components ++ [Segment.lit pg.file_sep]
      ∧ pg.add_filesep.terminated = pg.terminated)
  ∧ (∀ (pg : PathGenerator) (k : String) (v attrs : List String),
        (pg.add_inclusion_rule k v attrs).rules = pg.rules ++ [⟨k, v, attrs⟩]
      ∧ (pg.add_inclusion_rule k v attrs).terminated = pg.terminated) := by
  refine ⟨?_, ?_, ?_, ?_, ?_⟩
  · intro pg att h
    simp [PathGenerator.gen_path, h]
  · intro pg key d vo rq
    cases hc : pg.components.getLast? with
    | none =>
      have he : pg.components = [] := List.getLast?_eq_none_iff.mp hc
      simp [PathGenerator.add_component, hc, he]
    | some s =>
      cases s with
      | lit t => simp [PathGenerator.add_component, hc]
      | comp nc => simp [PathGenerator.add_component, hc]
  · intro pg d
    exact ⟨rfl, rfl⟩
  · intro pg
    exact ⟨rfl, rfl⟩
  · intro pg k v attrs
    exact ⟨rfl, rfl⟩

/-- C2 witness: the not-terminated gate at a concrete fresh template. -/
theorem C2_witness :
    (PathGenerator.init none "_" "-" "/").gen_path [] =
      .error .notTerminated :=
  C2_terminal_gating.1 (PathGenerator.init none "_" "-" "/") [] rfl

/-- C5: `NameComponent` rendering — required & absent fails naming the key;
optional & absent renders `""`; present renders the value alone
(`value_only`) or `key + delimiter + value`. -/
theorem C5_component_rendering (nc : NameComponent) (att : AttrMap) :
    (lookupA att nc.key = none → nc.required = true →
        nc.name att = .error (.missingRequired nc.key))
  ∧ (lookupA att nc.key = none → nc.required = false → nc.name att = .ok "")
  ∧ (∀ v, lookupA att nc.key = some v →
        nc.name att =
          .ok (if nc.value_only then v else nc.key ++ nc.kv_delim ++ v)) := by
  refine ⟨?_, ?_, ?_⟩
  · intro h hr
    simp [NameComponent.name, h, hr]
  · intro h hr
    simp [NameComponent.name, h, hr]
  · intro v h
    simp [NameComponent.name, h]

/-- C5 witness: the three rendering cases at concrete components and maps
(the docstring examples of the `NameComponent` class). -/
theorem C5_witness :
    NameComponent.name ⟨"sub", "-", false, true⟩ [] =
      .error (.missingRequired "sub")
  ∧ NameComponent.name ⟨"acq", "-", false, false⟩ [("sub", "01")] = .ok ""
  ∧ NameComponent.name ⟨"sub", "-", false, true⟩ [("sub", "Anthony")] =
      .ok "sub-Anthony" :=
  ⟨(C5_component_rendering ⟨"sub", "-", false, true⟩ []).1 rfl rfl,
   (C5_component_rendering ⟨"acq", "-", false, false⟩ [("sub", "01")]).2.1
      rfl rfl,
   (C5_component_rendering ⟨"sub", "-", false, true⟩ [("sub", "Anthony")]).2.2
      "Anthony" rfl⟩

/-- C7: `add_component` inserts the default attribute-separator literal
before the new component exactly when the segment list is non-empty and ends
in a component; on an empty list or after a literal the component is appended
directly. -/
theorem C7_auto_separator (pg : PathGenerator) (key : String)
    (delim : Option String) (vo rq : Bool) :
    (pg.components = [] →
        (pg.add_component key delim vo rq).components
          = [Segment.comp (NameComponent.make key (delim.getD pg.kv_sep) vo rq)])
  ∧ (∀ nc, pg.components.getLast? = some (Segment.comp nc) →
        (pg.add_component key delim vo rq).components
          = pg.components ++ [Segment.lit pg.attribute_sep,
              Segment.comp (NameComponent.make key (delim.getD pg.kv_sep) vo rq)])
  ∧ (∀ s, pg.components.getLast? = some (Segment.lit s) →
        (pg.add_component key delim vo rq).components
          = pg.components ++
              [Segment.comp (NameComponent.make key (delim.getD pg.kv_sep) vo rq)]) := by
  refine ⟨?_, ?_, ?_⟩
  · intro h
    have hn : pg.components.getLast? = none := by simp [h]
    simp [PathGenerator.add_component, hn]
  · intro nc h
    simp [PathGenerator.add_component, h]
  · intro s h
    simp [PathGenerator.add_component, h]

/-- C7 witness: the three insertion cases at concrete builder states. -/
theorem C7_witness :
    ((PathGenerator.init none "_" "-" "/").add_component "x" none false true).components
      = [Segment.comp (NameComponent.make "x" "-" false true)]
  ∧ (((PathGenerator.init none "_" "-" "/").add_component "x" none false true).add_component
        "y" none false true).components
      = ((PathGenerator.init none "_" "-" "/").add_component "x" none false true).components
        ++ [Segment.lit "_", Segment.comp (NameComponent.make "y" "-" false true)]
  ∧ ((PathGenerator.init (some "") "_" "-" "/").add_component "x" none false true).components
      = (PathGenerator.init (some "") "_" "-" "/").components
        ++ [Segment.comp (NameComponent.make "x" "-" false true)] :=
  ⟨(C7_auto_separator (PathGenerator.init none "_" "-" "/") "x" none false true).1 rfl,
   (C7_auto_separator ((PathGenerator.init none "_" "-" "/").add_component "x" none false true)
      "y" none false true).2.1 (NameComponent.make "x" "-" false true) rfl,
   (C7_auto_separator (PathGenerator.init (some "") "_" "-" "/") "x" none false true).2.2
      "/" rfl⟩

/-- C8 counterexample: with `root = None` the component list starts empty —
no file-separator element is emitted, contradicting the claim that "the first
emitted element is simply the file separator" (that behaviour belongs to
`root = ""` only). -/
theorem C8_counterexample :
    (PathGenerator.init none "_" "-" "/").components = []
  ∧ (PathGenerator.init none "_" "-" "/").components.head? ≠
      some (Segment.lit "/")
  ∧ (PathGenerator.init (some "") "_" "-" "/").components = [Segment.lit "/"] := by
  decide

/-- C8 (amended): a non-empty root is emitted as the single initial literal
`root + file_sep`; a `None` root emits nothing (the segment list starts
empty); only the empty-string root emits the bare file separator as the first
segment. -/
theorem C8_root_handling (asep ksep fs : String) :
    (PathGenerator.init none asep ksep fs).components = []
  ∧ (PathGenerator.init (some "") asep ksep fs).components = [Segment.lit fs]
  ∧ (∀ r : String, r ≠ "" →
        (PathGenerator.init (some r) asep ksep fs).components
          = [Segment.lit (r ++ fs)]) := by
  refine ⟨rfl, by simp [PathGenerator.init], ?_⟩
  intro r h
  simp [PathGenerator.init, h]

/-- C8 witness: the non-empty-root case at a concrete root. -/
theorem C8_witness :
    (PathGenerator.init (some "data") "_" "-" "/").components
      = [Segment.lit ("data" ++ "/")] :=
  (C8_root_handling "_" "-" "/").2.2 "data" (by decide)

/-- C9: registering an attribute name that is already registered fails with
the duplicate-attribute error (spec-modelled `add_attribute`; in the `Except`
model a failing call returns no new template, so the registry is unchanged). -/
theorem C9_duplicate_attribute :
    (∀ (pg pg' : PathGenerator) (n : String),
        pg.add_attribute n = .ok pg' →
        pg'.add_attribute n = .error (.duplicateAttribute n))
  ∧ (∀ (pg : PathGenerator) (n : String), n ∈ pg.attributes →
        pg.add_attribute n = .error (.duplicateAttribute n)) := by
  constructor
  · intro pg pg' n h
    by_cases hm : n ∈ pg.attributes
    · rw [PathGenerator.add_attribute, if_pos hm] at h
      cases h
    · rw [PathGenerator.add_attribute, if_neg hm] at h
      injection h with h2
      subst h2
      simp [PathGenerator.add_attribute]
  · intro pg n h
    simp [PathGenerator.add_attribute, h]

/-- C9 witness: re-registering `subject` on the Scenario C template (whose
registry is exactly `["subject"]`) fails with the duplicate error. -/
theorem C9_witness :
    scenarioC.add_attribute "subject" = .error (.duplicateAttribute "subject") :=
  C9_duplicate_attribute.2 scenarioC "subject" (by decide)

/-- C10: constructing a `NameComponent` with `value_only = true` forces
`required = true` whatever the caller passed, so a value-only component with
an absent key always fails rendering. -/
theorem C10_value_only_forces_required (key d : String) (rq : Bool)
    (att : AttrMap) :
    (NameComponent.make key d true rq).required = true
  ∧ (lookupA att key = none →
        (NameComponent.make key d true rq).name att =
          .error (.missingRequired key)) := by
  constructor
  · simp [NameComponent.make]
  · intro h
    simp [NameComponent.name, NameComponent.make, h]

/-- C10 witness: a value-only component constructed with `required = false`
still fails on an absent key. -/
theorem C10_witness :
    (NameComponent.make "sub" "-" true false).required = true
  ∧ NameComponent.name (NameComponent.make "sub" "-" true false)
      [("other", "1")] = .error (.missingRequired "sub") :=
  ⟨(C10_value_only_forces_required "sub" "-" false []).1,
   (C10_value_only_forces_required "sub" "-" false [("other", "1")]).2 rfl⟩

/-- C4 counterexample: the "pass" half of the claim is false — for the rule
`(key=k, values={v1}, allowed={a,b})` the map `{k: v1}` has all of its keys in
`{a,b,k}`, yet `check` fails: the loop tests every key of the map against the
allowed set, the trigger key itself included, and `k ∉ {a,b}`. -/
theorem C4_counterexample :
    InclusionRule.check ⟨"k", ["v1"], ["a", "b"]⟩ [("k", "v1")]
      = .error (.ruleViolation "k" "k" "v1") := rfl

/-- C4 (amended): for the rule `(key=k, values={v1}, allowed={a,b})`: a
triggered map with any key outside `{a,b}` — the trigger key itself included —
fails the check; a triggered map all of whose keys lie in `{a,b}` passes; a
map binding `k` to a value outside the trigger set passes regardless of its
other keys. -/
theorem C4_inclusion_rule_semantics (k v1 a b : String) (m : AttrMap) :
    (lookupA m k = some v1 →
        (∃ q ∈ m, q.1 ≠ a ∧ q.1 ≠ b) →
        InclusionRule.check ⟨k, [v1], [a, b]⟩ m ≠ .ok ())
  ∧ (lookupA m k = some v1 → (∀ q ∈ m, q.1 = a ∨ q.1 = b) →
        InclusionRule.check ⟨k, [v1], [a, b]⟩ m = .ok ())
  ∧ (∀ v, lookupA m k = some v → v ≠ v1 →
        InclusionRule.check ⟨k, [v1], [a, b]⟩ m = .ok ()) := by
  refine ⟨?_, ?_, ?_⟩
  · intro h1 hex hcontra
    obtain ⟨q, hq, hqa, hqb⟩ := hex
    simp only [InclusionRule.check, h1] at hcontra
    rw [if_pos (by simp)] at hcontra
    split at hcontra
    · simp at hcontra
    · next heq =>
      have hnp := List.find?_eq_none.mp heq q hq
      simp [hqa, hqb] at hnp
  · intro h1 hall
    simp only [InclusionRule.check, h1]
    rw [if_pos (by simp)]
    split
    · next q' heq =>
      have hp := List.find?_some heq
      have hm := List.mem_of_find?_eq_some heq
      rcases hall q' hm with h | h <;> simp [h] at hp
    · rfl
  · intro v h1 hne
    simp [InclusionRule.check, h1, hne]

/-- C4 witness: the three rule behaviours at concrete rules and maps. -/
theorem C4_witness :
    InclusionRule.check ⟨"k", ["v1"], ["a", "b"]⟩ [("k", "v1"), ("z", "1")]
      ≠ .ok ()
  ∧ InclusionRule.check ⟨"a", ["v1"], ["a", "b"]⟩ [("a", "v1"), ("b", "x")]
      = .ok ()
  ∧ InclusionRule.check ⟨"k", ["v1"], ["a", "b"]⟩ [("k", "other")] = .ok () :=
  ⟨(C4_inclusion_rule_semantics "k" "v1" "a" "b" [("k", "v1"), ("z", "1")]).1
      rfl ⟨("z", "1"), by decide, by decide, by decide⟩,
   (C4_inclusion_rule_semantics "a" "v1" "a" "b" [("a", "v1"), ("b", "x")]).2.1
      rfl (by decide),
   (C4_inclusion_rule_semantics "k" "v1" "a" "b" [("k", "other")]).2.2
      "other" rfl (by decide)⟩

/-- C6 counterexample: when the vanished optional component sits at the start
of the path, the delimiter that "would otherwise appear doubled" around it
(here `"/"`, raw rendering `"//b-x"`) occurs ZERO times in the final output
`"b-x"`, not once as the claim states: split-and-rejoin drops empty fields,
so boundary delimiters are removed entirely, not collapsed to one. -/
theorem C6_counterexample :
    pgOptStart.terminated = true
  ∧ renderSegs [("b", "x")] pgOptStart.components = .ok "//b-x"
  ∧ pgOptStart.gen_path [("b", "x")] = .ok "b-x"
  ∧ (pyStrSplit "/" "//b-x").length = 3
  ∧ (pyStrSplit "/" "b-x").length = 1 := by
  decide

/-- C6 (amended): an optional component with an absent key contributes the
empty string, and a non-empty delimiter left doubled around it by the
concatenation is collapsed by the per-delimiter split-and-rejoin — to exactly
one occurrence when non-empty text remains on both sides (the mid template:
raw `"a-" ++ va ++ "__b-" ++ vb` normalizes to `"a-" ++ va ++ "_b-" ++ vb`,
with `"_"` occurring exactly once), and removed entirely when the vanished
component sits at the path boundary (the start template: raw `"//b-" ++ vb`
normalizes to `"b-" ++ vb`, with `"/"` occurring zero times); value strings
are assumed free of the template's delimiters, the sharp edge the spec
acknowledges. -/
theorem C6_optional_vanishing :
    (∀ (nc : NameComponent) (att : AttrMap), nc.required = false →
        lookupA att nc.key = none → nc.name att = .ok "")
  ∧ (∀ va vb : String, vb ≠ "" →
      '-' ∉ va.data → '_' ∉ va.data → '-' ∉ vb.data → '_' ∉ vb.data →
        renderSegs [("a", va), ("b", vb)] pgOptMid.components
            = .ok ("a-" ++ va ++ "__b-" ++ vb)
        ∧ pgOptMid.gen_path [("a", va), ("b", vb)]
            = .ok ("a-" ++ va ++ "_b-" ++ vb)
        ∧ (pyStrSplit "_" ("a-" ++ va ++ "_b-" ++ vb)).length = 2)
  ∧ (∀ vb : String, vb ≠ "" → '-' ∉ vb.data → '/' ∉ vb.data →
        renderSegs [("b", vb)] pgOptStart.components = .ok ("//b-" ++ vb)
        ∧ pgOptStart.gen_path [("b", vb)] = .ok ("b-" ++ vb)
        ∧ (pyStrSplit "/" ("b-" ++ vb)).length = 1) := by
  refine ⟨?_, ?_, ?_⟩
  · intro nc att hreq hl
    simp [NameComponent.name, hl, hreq]
  · intro va vb hvbne hva1 hva2 hvb1 hvb2
    have e1 : ("a-" : String).data = ['a', '-'] := rfl
    have e2 : ("__b-" : String).data = ['_', '_', 'b', '-'] := rfl
    have hra : ("a" ++ "-" ++ va) ++ ("_" ++ ("" ++ ("_" ++ (("b" ++ "-" ++ vb) ++ ""))))
        = "a-" ++ va ++ "__b-" ++ vb := by
      apply String.ext
      simp [e1, e2]
    have hrend : renderSegs [("a", va), ("b", vb)] pgOptMid.components
        = .ok ("a-" ++ va ++ "__b-" ++ vb) := by
      rw [← hra]
      rfl
    refine ⟨hrend, ?_, count_underscore va vb hva2 hvb2⟩
    rw [gen_path_norules pgOptMid [("a", va), ("b", vb)]
      ("a-" ++ va ++ "__b-" ++ vb) rfl rfl hrend,
      show collectDelims pgOptMid.components [] = ["-", "_"] from rfl]
    simp only [stripFold]
    rw [if_neg (show ¬("-" : String) = "" by decide),
      if_neg (show ¬("_" : String) = "" by decide),
      stripOnce_dash_mid va vb hva1 hvb1 hvbne,
      stripOnce_underscore_mid va vb hva2 hvb2]
  · intro vb hvbne hvb1 hvb2
    have hra : "/" ++ ("" ++ ("/" ++ (("b" ++ "-" ++ vb) ++ "")))
        = "//b-" ++ vb := by
      apply String.ext
      simp
    have hrend : renderSegs [("b", vb)] pgOptStart.components
        = .ok ("//b-" ++ vb) := by
      rw [← hra]
      rfl
    refine ⟨hrend, ?_, count_slash vb hvb2⟩
    rw [gen_path_norules pgOptStart [("b", vb)] ("//b-" ++ vb) rfl rfl hrend,
      show collectDelims pgOptStart.components [] = ["/", "-"] from rfl]
    simp only [stripFold]
    rw [if_neg (show ¬("/" : String) = "" by decide),
      if_neg (show ¬("-" : String) = "" by decide),
      stripOnce_slash_start vb hvb2,
      stripOnce_dash_bx vb hvb1 hvbne]

/-- C6 witness: the two normalization families at concrete values. -/
theorem C6_witness :
    pgOptMid.gen_path [("a", "1"), ("b", "2")] = .ok ("a-" ++ "1" ++ "_b-" ++ "2")
  ∧ pgOptStart.gen_path [("b", "y")] = .ok ("b-" ++ "y") :=
  ⟨(C6_optional_vanishing.2.1 "1" "2" (by decide) (by decide) (by decide)
      (by decide) (by decide)).2.1,
   (C6_optional_vanishing.2.2 "y" (by decide) (by decide) (by decide)).2.1⟩

end Archivotron
